import Mathlib

/-!
Verification of the type-0 PPKTP temperature-tuning application (src/app.py).

The numerical core is shallowly embedded over the real numbers: Python/numpy
float arithmetic is idealised as exact real arithmetic, `np.sqrt`/`np.abs`
become `Real.sqrt`/`|·|`, and exceptional control flow (Python's
`ZeroDivisionError`, scipy's `RuntimeError`) is made explicit through
`Except`.  Division by zero inside numpy-valued intermediate arithmetic
returns IEEE infinities rather than raising, and is modelled by Lean's total
division (junk value `1/0 = 0`); the two places where the source performs
plain Python float division that can actually raise (`w1_guess` in
`solve_w1_for_period`) carry an explicit check.
-/

namespace PPKTP

/-- Error conditions that escape the numerical core: scipy's `RuntimeError`
on a failed `newton` iteration, and Python's `ZeroDivisionError` from the
plain-float computation of the initial guess. -/
inductive SolveErr where
  | convergenceFailure
  | zeroDivision
deriving DecidableEq

/-- One sample of the tuning curve, as assembled by the sweep loop of `run`
(src/app.py lines 89–97): the sweep temperature together with the signal and
idler wavelengths in nanometres.  `none` models the `np.nan` sentinel
appended on a caught convergence failure. -/
structure TuningPoint where
  temperature : ℝ
  signal : Option ℝ
  idler : Option ℝ

/-- `sellmeier` (src/app.py lines 15–23): base Sellmeier index of KTP, with
the extraordinary-axis coefficient set when `pol = "z"` and the
ordinary-axis coefficient set for every other string.  `np.sqrt (np.abs e)`
is modelled as `Real.sqrt |e|`. -/
noncomputable def sellmeier (w : ℝ) (pol : String) : ℝ :=
  if pol = "z" then
    Real.sqrt |2.12725 + (1.18431 / (w ^ 2 - 0.0514852) + 0.6603 / (w ^ 2 - 100.00507)
      - 9.68956e-3) * (w ^ 2)|
  else
    Real.sqrt |2.09930 + (0.922683 / (w ^ 2 - 0.0467695) - 0.0138404) * (w ^ 2)|

/-- `temperature_dependence` (src/app.py lines 25–31): thermo-optic
coefficient dn/dT, axis-selected the same way as `sellmeier`.  Python's
`w**-3` is the integer power `w ^ (-3 : ℤ)`. -/
noncomputable def temperature_dependence (w : ℝ) (pol : String) : ℝ :=
  if pol = "z" then
    1e-6 * (4.1010 * w ^ (-3 : ℤ) - 8.9603 * w ^ (-2 : ℤ) + 9.9228 * w ^ (-1 : ℤ) + 9.9587) +
      1e-8 * (3.1481 * w ^ (-3 : ℤ) - 9.8136 * w ^ (-2 : ℤ) + 10.459 * w ^ (-1 : ℤ) - 1.1882)
  else
    1e-6 * (2.6486 * w ^ (-3 : ℤ) - 6.0629 * w ^ (-2 : ℤ) + 6.3061 * w ^ (-1 : ℤ) + 6.2897) +
      1e-8 * (1.3470 * w ^ (-3 : ℤ) - 3.5770 * w ^ (-2 : ℤ) + 2.2244 * w ^ (-1 : ℤ) - 0.14445)

/-- `n` (src/app.py lines 33–34): temperature-corrected refractive index. -/
noncomputable def n (w T : ℝ) (pol : String) (T_ref : ℝ) : ℝ :=
  sellmeier w pol + temperature_dependence w pol * (T - T_ref)

/-- `poling_period` (src/app.py lines 36–37): quasi-phase-matching grating
period for the wavelength triple `(w1, w2, w3)` = (idler, signal, pump), all
three indices taken on the extraordinary axis `"z"`. -/
noncomputable def poling_period (w1 w2 w3 T T_ref : ℝ) : ℝ :=
  1 / (n w3 T "z" T_ref / w3 - n w2 T "z" T_ref / w2 - n w1 T "z" T_ref / w1)

/-- The energy-conservation pairing `1 / (1/w3 - 1/w)` used inline by the
source to obtain the wavelength conjugate to `w` under pump `w3`
(src/app.py lines 41, 44, 71 and 92). -/
noncomputable def energy_conjugate (w3 w : ℝ) : ℝ :=
  1 / (1 / w3 - 1 / w)

/-- The local residual `equation` inside `solve_w1_for_period`
(src/app.py lines 40–42): the phase-matching period at idler `w1` and its
energy-conjugate signal, minus the target period. -/
noncomputable def inversion_residual (target_period w3 T T_ref w1 : ℝ) : ℝ :=
  poling_period w1 (energy_conjugate w3 w1) w3 T T_ref - target_period

/-- One run of the secant loop of `scipy.optimize.newton` (the `fprime=None`
path used by the source), with defaults `tol = 1.48e-8`, `rtol = 0`,
`maxiter = 50`; the fuel argument counts the remaining loop iterations.
Exact equality `q1 = q0` with `p1 ≠ p0`, and exhaustion of the iteration
budget, both raise `RuntimeError` in scipy and are modelled as
`convergenceFailure`. -/
noncomputable def secantIter (f : ℝ → ℝ) : ℕ → ℝ → ℝ → ℝ → ℝ → Except SolveErr ℝ
  | 0, _, _, _, _ => .error .convergenceFailure
  | fuel + 1, p0, p1, q0, q1 =>
    if q1 = q0 then
      if p1 ≠ p0 then .error .convergenceFailure
      else .ok ((p1 + p0) / 2)
    else
      let p := if |q1| > |q0|
        then (-q0 / q1 * p1 + p0) / (1 - q0 / q1)
        else (-q1 / q0 * p0 + p1) / (1 - q1 / q0)
      if |p - p1| ≤ 1.48e-8 then .ok p
      else secantIter f fuel p1 p q1 (f p)

/-- `scipy.optimize.newton f x0` as called by the source (no derivative, all
defaults): the second secant point is `x0 * (1 + 1e-4)` nudged by `±1e-4`,
the two starting points are ordered by residual magnitude, and the secant
loop runs with `maxiter = 50`. -/
noncomputable def scipyNewton (f : ℝ → ℝ) (x0 : ℝ) : Except SolveErr ℝ :=
  let p1' := x0 * (1 + 1e-4)
  let p1 := p1' + (if p1' ≥ 0 then 1e-4 else -1e-4)
  let q0 := f x0
  let q1 := f p1
  if |q1| < |q0| then secantIter f 50 p1 x0 q1 q0
  else secantIter f 50 x0 p1 q0 q1

/-- `solve_w1_for_period` (src/app.py lines 39–45).  The initial guess
`w1_guess = 1 / (1/w3 - 1/0.9)` is computed in plain Python floats, so a
zero denominator (pump exactly 0.9 µm) raises an uncaught
`ZeroDivisionError`; otherwise scipy's secant solver is run on the
residual. -/
noncomputable def solve_w1_for_period (target_period w3 T T_ref : ℝ) : Except SolveErr ℝ :=
  if 1 / w3 - 1 / (0.9 : ℝ) = 0 then .error .zeroDivision
  else scipyNewton (inversion_residual target_period w3 T T_ref) (1 / (1 / w3 - 1 / 0.9))

/-- One iteration of the sweep loop in `run` (src/app.py lines 89–97): a
successful inversion yields a valid point with both wavelengths in nm; a
`RuntimeError` (convergence failure) is caught and yields the `np.nan`
sentinel pair; a `ZeroDivisionError` escapes the `except RuntimeError`
handler and aborts the whole loop. -/
noncomputable def sweepPoint (Λfixed w3 T_ref T : ℝ) : Except SolveErr TuningPoint :=
  match solve_w1_for_period Λfixed w3 T T_ref with
  | .ok w1 => .ok ⟨T, some (energy_conjugate w3 w1 * 1000), some (w1 * 1000)⟩
  | .error .convergenceFailure => .ok ⟨T, none, none⟩
  | .error .zeroDivision => .error .zeroDivision

/-- The sweep loop of `run` (src/app.py lines 89–97), assembling one
`TuningPoint` per temperature in input order; an uncaught error aborts the
loop and the whole computation. -/
noncomputable def sweep (Λfixed w3 T_ref : ℝ) : List ℝ → Except SolveErr (List TuningPoint)
  | [] => .ok []
  | T :: ts =>
    match sweepPoint Λfixed w3 T_ref T with
    | .ok pt =>
      match sweep Λfixed w3 T_ref ts with
      | .ok rest => .ok (pt :: rest)
      | .error e => .error e
    | .error e => .error e

/-- `np.linspace T_min T_max points` (src/app.py line 85) over exact reals:
`points` evenly spaced samples including both endpoints. -/
noncomputable def linspace (a b : ℝ) (num : ℕ) : List ℝ :=
  (List.range num).map fun i => a + (b - a) * (i : ℝ) / ((num : ℝ) - 1)

/-- The ways `run` stops without producing a curve: the two sidebar
input-range rejections (src/app.py lines 64–66 and 80–82) and an error
escaping the sweep loop. -/
inductive RunError where
  | tempOrderError
  | rangeError
  | uncaught (e : SolveErr)
deriving DecidableEq

/-- The computational skeleton of `run` (src/app.py lines 51–97), with every
widget value passed as an explicit argument: reject `T0 < T_ref` before
anything else is computed; when `auto_calc`, derive the grating period from
the example pair at `T0` — here `w2_example = 1 / (1/w3 - 1/w1_example)`
(line 71) is plain Python float division, so a zero denominator
(`w1_example = w3`) raises an uncaught `ZeroDivisionError` and the
computation aborts before the range check is ever reached; otherwise take
the manual period.  Only then reject `T_max ≤ T_min`, and finally sweep
`linspace T_min T_max points`. -/
noncomputable def run (w3 w1_example T0 T_ref : ℝ) (auto_calc : Bool) (Λmanual T_min T_max : ℝ)
    (points : ℕ) : Except RunError (List TuningPoint) :=
  if T0 < T_ref then .error .tempOrderError
  else if auto_calc = true ∧ 1 / w3 - 1 / w1_example = 0 then .error (.uncaught .zeroDivision)
  else
    let Λfixed := if auto_calc then
        poling_period w1_example (energy_conjugate w3 w1_example) w3 T0 T_ref
      else Λmanual
    if T_max ≤ T_min then .error .rangeError
    else
      match sweep Λfixed w3 T_ref (linspace T_min T_max points) with
      | .ok curve => .ok curve
      | .error e => .error (.uncaught e)

/-- Concrete pump wavelength used as a test fixture: for this pump the two
starting points of scipy's secant iteration are exactly energy-conjugate to
one another, so the residual takes the same value at both and the solver
fails on its first iteration, for every target period and temperature. -/
noncomputable def w3fix : ℝ := 80991 / 179999

/-! ### Helper lemmas -/

/-- At the reference temperature the thermo-optic correction vanishes. -/
lemma n_at_ref (w T : ℝ) (pol : String) : n w T pol T = sellmeier w pol := by
  simp [n]

/-- Rational lower bound on the extraordinary index at the 0.405 µm pump. -/
lemma sellmeier_405_gt : (1.9 : ℝ) < sellmeier 0.405 "z" := by
  unfold sellmeier
  rw [if_pos rfl, abs_of_pos (by norm_num)]
  exact (Real.lt_sqrt (by norm_num)).mpr (by norm_num)

/-- Rational upper bound on the extraordinary index at 0.81 µm. -/
lemma sellmeier_81_lt : sellmeier 0.81 "z" < 1.85 := by
  unfold sellmeier
  rw [if_pos rfl, abs_of_pos (by norm_num)]
  exact (Real.sqrt_lt' (by norm_num)).mpr (by norm_num)

/-- The phase-matching denominator at the degenerate 0.405/0.81/0.81
reference triple is strictly positive. -/
lemma degenerate_denom_pos :
    0 < n (0.405 : ℝ) 25 "z" 25 / 0.405 - n (0.81 : ℝ) 25 "z" 25 / 0.81 -
      n (0.81 : ℝ) 25 "z" 25 / 0.81 := by
  rw [n_at_ref, n_at_ref]
  have h3 := sellmeier_405_gt
  have h1 := sellmeier_81_lt
  have e : sellmeier 0.405 "z" / 0.405 - sellmeier 0.81 "z" / 0.81 - sellmeier 0.81 "z" / 0.81
      = sellmeier 0.405 "z" * (200 / 81) - sellmeier 0.81 "z" * (100 / 81) -
        sellmeier 0.81 "z" * (100 / 81) := by
    rw [div_eq_mul_inv, div_eq_mul_inv, div_eq_mul_inv]
    norm_num
  rw [e]
  linarith

/-- Under the fixture pump, the energy conjugate of the solver's initial
guess `8999/10001` is exactly `9/10`. -/
lemma energy_conjugate_fix_guess : energy_conjugate w3fix (8999 / 10001) = 9 / 10 := by
  unfold energy_conjugate w3fix
  norm_num

/-- Under the fixture pump, the energy conjugate of `9/10` is exactly the
initial guess `8999/10001`. -/
lemma energy_conjugate_fix_p1 : energy_conjugate w3fix (9 / 10) = 8999 / 10001 := by
  unfold energy_conjugate w3fix
  norm_num

/-- The grating period is symmetric under exchanging the idler and signal
arguments. -/
lemma poling_period_swap (a b w3 T T_ref : ℝ) :
    poling_period a b w3 T T_ref = poling_period b a w3 T T_ref := by
  unfold poling_period
  ring_nf

/-- For the fixture pump the inversion residual takes the same value at the
two starting points of scipy's secant iteration. -/
lemma residual_fix_symm (Λt T T_ref : ℝ) :
    inversion_residual Λt w3fix T T_ref (9 / 10) =
      inversion_residual Λt w3fix T T_ref (8999 / 10001) := by
  unfold inversion_residual
  rw [energy_conjugate_fix_guess, energy_conjugate_fix_p1, poling_period_swap]

/-- The secant loop never produces a `zeroDivision` error. -/
lemma secantIter_ne_zeroDiv (f : ℝ → ℝ) :
    ∀ (fuel : ℕ) (p0 p1 q0 q1 : ℝ),
      secantIter f fuel p0 p1 q0 q1 ≠ .error .zeroDivision := by
  intro fuel
  induction fuel with
  | zero =>
    intro p0 p1 q0 q1
    simp [secantIter]
  | succ k ih =>
    intro p0 p1 q0 q1
    simp only [secantIter]
    split
    · split
      · simp
      · simp
    · split <;> split <;> first | apply ih | simp

/-- `scipy.optimize.newton` never produces a `zeroDivision` error. -/
lemma scipyNewton_ne_zeroDiv (f : ℝ → ℝ) (x0 : ℝ) :
    scipyNewton f x0 ≠ .error .zeroDivision := by
  simp only [scipyNewton]
  split <;> split <;> exact secantIter_ne_zeroDiv f 50 _ _ _ _

/-- If the residual takes the same value at both current points, the secant
loop raises `RuntimeError` on its next iteration (unless the points
coincide). -/
lemma secantIter_first_fail (f : ℝ → ℝ) (fuel : ℕ) (p0 p1 q : ℝ) (hne : p1 ≠ p0) :
    secantIter f (fuel + 1) p0 p1 q q = .error .convergenceFailure := by
  simp only [secantIter]
  rw [if_pos trivial, if_pos hne]

/-- When the residual takes the same value at the two secant starting
points, scipy's solver raises `RuntimeError` on its first iteration. -/
lemma scipyNewton_symm_fail (f : ℝ → ℝ) (hsym : f (9 / 10) = f (8999 / 10001)) :
    scipyNewton f (8999 / 10001) = .error .convergenceFailure := by
  have hp1 : (8999 / 10001 : ℝ) * (1 + 1e-4) +
      (if (8999 / 10001 : ℝ) * (1 + 1e-4) ≥ 0 then (1e-4 : ℝ) else -1e-4) = 9 / 10 := by
    rw [if_pos (by norm_num)]
    norm_num
  simp only [scipyNewton]
  rw [hp1, hsym, if_neg (lt_irrefl _)]
  exact secantIter_first_fail f 49 _ _ _ (by norm_num)

/-- For the fixture pump the inversion fails with `ConvergenceFailure` at
every target period, temperature and reference temperature. -/
lemma solve_fix_fail (Λt T T_ref : ℝ) :
    solve_w1_for_period Λt w3fix T T_ref = .error .convergenceFailure := by
  have hne : ¬(1 / w3fix - 1 / (0.9 : ℝ) = 0) := by
    unfold w3fix
    norm_num
  have hguess : 1 / (1 / w3fix - 1 / (0.9 : ℝ)) = (8999 / 10001 : ℝ) := by
    unfold w3fix
    norm_num
  unfold solve_w1_for_period
  rw [if_neg hne, hguess]
  exact scipyNewton_symm_fail _ (residual_fix_symm Λt T T_ref)

/-- At pump `0.9` the initial-guess denominator is exactly zero, so the
inversion raises `ZeroDivisionError` before the solver ever runs. -/
lemma solve_09_zeroDiv (Λt T T_ref : ℝ) :
    solve_w1_for_period Λt (0.9 : ℝ) T T_ref = .error .zeroDivision := by
  unfold solve_w1_for_period
  rw [if_pos (sub_self _)]

/-- A caught convergence failure yields the sentinel tuning point. -/
lemma sweepPoint_conv (Λt w3 T_ref T : ℝ)
    (h : solve_w1_for_period Λt w3 T T_ref = .error .convergenceFailure) :
    sweepPoint Λt w3 T_ref T = .ok ⟨T, none, none⟩ := by
  unfold sweepPoint
  rw [h]

/-- An uncaught `ZeroDivisionError` aborts the sweep iteration. -/
lemma sweepPoint_zeroDiv (Λt w3 T_ref T : ℝ)
    (h : solve_w1_for_period Λt w3 T T_ref = .error .zeroDivision) :
    sweepPoint Λt w3 T_ref T = .error .zeroDivision := by
  unfold sweepPoint
  rw [h]

/-- Every point the sweep loop emits carries its own sweep temperature. -/
lemma sweepPoint_temperature (Λt w3 T_ref T : ℝ) (pt : TuningPoint)
    (h : sweepPoint Λt w3 T_ref T = .ok pt) : pt.temperature = T := by
  unfold sweepPoint at h
  split at h
  · cases h
    rfl
  · cases h
    rfl
  · cases h

/-- The sweep of an empty temperature list is the empty curve. -/
lemma sweep_nil (Λt w3 T_ref : ℝ) : sweep Λt w3 T_ref [] = .ok [] := rfl

/-- Prepending a temperature whose inversion fails with `ConvergenceFailure`
prepends the sentinel point and leaves the rest of the sweep unchanged. -/
lemma sweep_cons_conv (Λt w3 T_ref T : ℝ) (ts : List ℝ)
    (h : solve_w1_for_period Λt w3 T T_ref = .error .convergenceFailure) :
    sweep Λt w3 T_ref (T :: ts) =
      (sweep Λt w3 T_ref ts).map fun l => (⟨T, none, none⟩ : TuningPoint) :: l := by
  have hp := sweepPoint_conv Λt w3 T_ref T h
  cases hs : sweep Λt w3 T_ref ts <;> simp [sweep, hp, hs, Except.map]

/-- The sweep of a concatenation is the concatenation of the sweeps, with
the first uncaught error winning. -/
lemma sweep_append (Λt w3 T_ref : ℝ) (ts₁ ts₂ : List ℝ) :
    sweep Λt w3 T_ref (ts₁ ++ ts₂) =
      (sweep Λt w3 T_ref ts₁).bind fun l₁ =>
        (sweep Λt w3 T_ref ts₂).map fun l₂ => l₁ ++ l₂ := by
  induction ts₁ with
  | nil =>
    cases h2 : sweep Λt w3 T_ref ts₂ <;> simp [sweep, h2, Except.bind, Except.map]
  | cons T ts ih =>
    cases hp : sweepPoint Λt w3 T_ref T <;>
      cases h1 : sweep Λt w3 T_ref (ts ++ ts₂) <;>
        simp_all [sweep, Except.bind, Except.map] <;>
          cases h3 : sweep Λt w3 T_ref ts <;>
            cases h4 : sweep Λt w3 T_ref ts₂ <;> simp_all [Except.bind, Except.map]

/-! ### Claim theorems -/

/-- C2: `poling_period w1 w2 w3 T T_ref` returns exactly
`1 / (n(pump,T)/pump − n(signal,T)/signal − n(idler,T)/idler)` with every
refractive index evaluated on the extraordinary axis `"z"`, for all inputs
where that denominator is nonzero. -/
theorem c2_period_formula (w1 w2 w3 T T_ref : ℝ)
    (_h : n w3 T "z" T_ref / w3 - n w2 T "z" T_ref / w2 - n w1 T "z" T_ref / w1 ≠ 0) :
    poling_period w1 w2 w3 T T_ref =
      1 / (n w3 T "z" T_ref / w3 - n w2 T "z" T_ref / w2 - n w1 T "z" T_ref / w1) := rfl

/-- Witness for C2 at the degenerate reference triple (0.81, 0.81, 0.405)
at 25 °C, whose denominator is provably nonzero. -/
theorem c2_period_formula_witness :
    (n (0.405 : ℝ) 25 "z" 25 / 0.405 - n (0.81 : ℝ) 25 "z" 25 / 0.81 -
      n (0.81 : ℝ) 25 "z" 25 / 0.81 ≠ 0) ∧
    poling_period 0.81 0.81 0.405 25 25 =
      1 / (n (0.405 : ℝ) 25 "z" 25 / 0.405 - n (0.81 : ℝ) 25 "z" 25 / 0.81 -
        n (0.81 : ℝ) 25 "z" 25 / 0.81) :=
  ⟨ne_of_gt degenerate_denom_pos,
   c2_period_formula 0.81 0.81 0.405 25 25 (ne_of_gt degenerate_denom_pos)⟩

/-- C3: the combined index `n` is the temperature-independent Sellmeier base
plus the thermo-optic term times `(T − T_ref)`; at `T = T_ref` it equals the
base index. -/
theorem c3_index_decomposition (w T : ℝ) (pol : String) (T_ref : ℝ) :
    n w T pol T_ref = sellmeier w pol + temperature_dependence w pol * (T - T_ref) ∧
    n w T_ref pol T_ref = sellmeier w pol :=
  ⟨rfl, n_at_ref w T_ref pol⟩

/-- C7: wherever the resonance denominators of the chosen axis are nonzero,
`sellmeier` is defined and non-negative — the absolute value taken before
the square root rules out any negative radicand. -/
theorem c7_sellmeier_total (w : ℝ) (pol : String) :
    (pol = "z" → w ^ 2 - 0.0514852 ≠ 0 → w ^ 2 - 100.00507 ≠ 0 → 0 ≤ sellmeier w pol) ∧
    (pol ≠ "z" → w ^ 2 - 0.0467695 ≠ 0 → 0 ≤ sellmeier w pol) := by
  constructor
  · intro h _ _
    unfold sellmeier
    rw [if_pos h]
    exact Real.sqrt_nonneg _
  · intro h _
    unfold sellmeier
    rw [if_neg h]
    exact Real.sqrt_nonneg _

/-- Witness for C7 at `w = 1` on both axes, where all three resonance
denominators are nonzero. -/
theorem c7_sellmeier_total_witness :
    ((1 : ℝ) ^ 2 - 0.0514852 ≠ 0) ∧ ((1 : ℝ) ^ 2 - 100.00507 ≠ 0) ∧
    ((1 : ℝ) ^ 2 - 0.0467695 ≠ 0) ∧ 0 ≤ sellmeier 1 "z" ∧ 0 ≤ sellmeier 1 "y" :=
  ⟨by norm_num, by norm_num, by norm_num,
   (c7_sellmeier_total 1 "z").1 rfl (by norm_num) (by norm_num),
   (c7_sellmeier_total 1 "y").2 (by decide) (by norm_num)⟩

/-- C8: when the signal is computed as the energy conjugate
`w2 = 1/(1/w3 − 1/w1)` of idler `w1` under pump `w3` (with `1/w3 ≠ 1/w1`),
energy conservation `1/w3 = 1/w1 + 1/w2` holds exactly. -/
theorem c8_energy_conservation (w3 w1 : ℝ) (_h : 1 / w3 ≠ 1 / w1) :
    1 / w3 = 1 / w1 + 1 / energy_conjugate w3 w1 := by
  rw [energy_conjugate, one_div_one_div]
  ring

/-- Witness for C8 at the reference pump/idler pair 0.405 µm / 0.81 µm. -/
theorem c8_energy_conservation_witness :
    (1 / (0.405 : ℝ) ≠ 1 / (0.81 : ℝ)) ∧
    1 / (0.405 : ℝ) = 1 / (0.81 : ℝ) + 1 / energy_conjugate 0.405 0.81 :=
  ⟨by norm_num, c8_energy_conservation 0.405 0.81 (by norm_num)⟩

/-- C10: any polarization string other than exactly `"z"` is silently
evaluated with the ordinary-axis coefficient set in both dispersion
functions; the axis argument is never validated and never causes an
error. -/
theorem c10_axis_fallthrough (w : ℝ) (pol : String) (h : pol ≠ "z") :
    sellmeier w pol =
      Real.sqrt |2.09930 + (0.922683 / (w ^ 2 - 0.0467695) - 0.0138404) * (w ^ 2)| ∧
    temperature_dependence w pol =
      1e-6 * (2.6486 * w ^ (-3 : ℤ) - 6.0629 * w ^ (-2 : ℤ) + 6.3061 * w ^ (-1 : ℤ) + 6.2897) +
        1e-8 * (1.3470 * w ^ (-3 : ℤ) - 3.5770 * w ^ (-2 : ℤ) + 2.2244 * w ^ (-1 : ℤ)
          - 0.14445) := by
  unfold sellmeier temperature_dependence
  rw [if_neg h, if_neg h]
  exact ⟨rfl, rfl⟩

/-- Witness for C10 with the misspelled axis `"Z"` at `w = 2`. -/
theorem c10_axis_fallthrough_witness :
    ("Z" ≠ "z") ∧
    sellmeier 2 "Z" =
      Real.sqrt |2.09930 + (0.922683 / ((2 : ℝ) ^ 2 - 0.0467695) - 0.0138404) * ((2 : ℝ) ^ 2)| ∧
    temperature_dependence 2 "Z" =
      1e-6 * (2.6486 * (2 : ℝ) ^ (-3 : ℤ) - 6.0629 * (2 : ℝ) ^ (-2 : ℤ)
          + 6.3061 * (2 : ℝ) ^ (-1 : ℤ) + 6.2897) +
        1e-8 * (1.3470 * (2 : ℝ) ^ (-3 : ℤ) - 3.5770 * (2 : ℝ) ^ (-2 : ℤ)
          + 2.2244 * (2 : ℝ) ^ (-1 : ℤ) - 0.14445) :=
  ⟨by decide, (c10_axis_fallthrough 2 "Z" (by decide)).1,
   (c10_axis_fallthrough 2 "Z" (by decide)).2⟩

/-- C1 (counterexample): at pump `wp = 0.9`, signal `ws = 1.8` (so
`0 < wp < ws`), `T = T_ref = 25`, the round trip does not recover the idler
within 1e-6 µm: the inversion's initial-guess denominator `1/wp − 1/0.9` is
exactly zero, so `solve_w1_for_period` raises `ZeroDivisionError` and
returns no wavelength at all. -/
theorem c1_roundtrip_counterexample :
    (0 : ℝ) < 0.9 ∧ (0.9 : ℝ) < 1.8 ∧
    solve_w1_for_period (poling_period (energy_conjugate 0.9 1.8) 1.8 0.9 25 25)
      (0.9 : ℝ) 25 25 = .error .zeroDivision ∧
    (solve_w1_for_period (poling_period (energy_conjugate 0.9 1.8) 1.8 0.9 25 25)
      (0.9 : ℝ) 25 25).isOk = false := by
  refine ⟨by norm_num, by norm_num, solve_09_zeroDiv _ 25 25, ?_⟩
  rw [solve_09_zeroDiv _ 25 25]
  rfl

/-- C1 (amended): for every pump `wp > 0` and signal `ws > wp`, the idler
`λi = 1/(1/wp − 1/ws)` is an exact root of the residual the inverter drives
to zero — its energy conjugate is `ws` and the period it produces equals
the target period — but the iterative solver is not guaranteed to return
it (at `wp = 0.9` the inversion fails outright). -/
theorem c1_roundtrip_amended (wp ws T T_ref : ℝ) (_hp : 0 < wp) (_hs : wp < ws) :
    energy_conjugate wp (energy_conjugate wp ws) = ws ∧
    inversion_residual (poling_period (energy_conjugate wp ws) ws wp T T_ref) wp T T_ref
      (energy_conjugate wp ws) = 0 := by
  have key : energy_conjugate wp (energy_conjugate wp ws) = ws := by
    unfold energy_conjugate
    rw [one_div_one_div]
    have e : 1 / wp - (1 / wp - 1 / ws) = 1 / ws := by ring
    rw [e, one_div_one_div]
  refine ⟨key, ?_⟩
  unfold inversion_residual
  rw [key]
  exact sub_self _

/-- Witness for the amended C1 at `wp = 0.405`, `ws = 0.81`, `T = 30`,
`T_ref = 25`. -/
theorem c1_roundtrip_amended_witness :
    (0 : ℝ) < 0.405 ∧ (0.405 : ℝ) < 0.81 ∧
    energy_conjugate 0.405 (energy_conjugate 0.405 0.81) = 0.81 ∧
    inversion_residual (poling_period (energy_conjugate 0.405 0.81) 0.81 0.405 30 25)
      0.405 30 25 (energy_conjugate 0.405 0.81) = 0 :=
  ⟨by norm_num, by norm_num,
   (c1_roundtrip_amended 0.405 0.81 30 25 (by norm_num) (by norm_num)).1,
   (c1_roundtrip_amended 0.405 0.81 30 25 (by norm_num) (by norm_num)).2⟩

/-- C4 (counterexample): at pump `0.9` the inversion fails at temperature
25 with a numeric failure (`ZeroDivisionError`), yet the sweep does not
emit a sentinel point and continue — the failure propagates and the sweep
produces no curve at all. -/
theorem c4_sentinel_counterexample :
    solve_w1_for_period 1 (0.9 : ℝ) 25 25 = .error .zeroDivision ∧
    sweep 1 (0.9 : ℝ) 25 [25] = .error .zeroDivision ∧
    sweep 1 (0.9 : ℝ) 25 [25] ≠ .ok [⟨25, none, none⟩] := by
  have hp := sweepPoint_zeroDiv 1 (0.9 : ℝ) 25 25 (solve_09_zeroDiv 1 25 25)
  have hs : sweep 1 (0.9 : ℝ) 25 [25] = .error .zeroDivision := by
    unfold sweep
    rw [hp]
  refine ⟨solve_09_zeroDiv 1 25 25, hs, ?_⟩
  rw [hs]
  simp

/-- C4 (amended): only a `ConvergenceFailure` (scipy's `RuntimeError`) is
converted into the sentinel tuning point, after which the sweep continues;
a `ZeroDivisionError` escapes the handler and aborts the whole sweep. -/
theorem c4_sentinel_amended (Λt w3 T_ref T : ℝ) :
    (solve_w1_for_period Λt w3 T T_ref = .error .convergenceFailure →
      ∀ ts : List ℝ, sweep Λt w3 T_ref (T :: ts) =
        (sweep Λt w3 T_ref ts).map fun l => (⟨T, none, none⟩ : TuningPoint) :: l) ∧
    (solve_w1_for_period Λt w3 T T_ref = .error .zeroDivision →
      ∀ ts : List ℝ, sweep Λt w3 T_ref (T :: ts) = .error .zeroDivision) := by
  constructor
  · intro h ts
    exact sweep_cons_conv Λt w3 T_ref T ts h
  · intro h ts
    have hp := sweepPoint_zeroDiv Λt w3 T_ref T h
    unfold sweep
    rw [hp]

/-- Witness for the amended C4: a convergence failure at the fixture pump
yields the sentinel point, while the pump-0.9 zero division aborts the
sweep. -/
theorem c4_sentinel_amended_witness :
    sweep 1 w3fix 25 ((25 : ℝ) :: []) = .ok [⟨(25 : ℝ), none, none⟩] ∧
    sweep 1 (0.9 : ℝ) 25 ((25 : ℝ) :: []) = .error .zeroDivision := by
  constructor
  · rw [(c4_sentinel_amended 1 w3fix 25 25).1 (solve_fix_fail 1 25 25) []]
    rfl
  · exact (c4_sentinel_amended 1 (0.9 : ℝ) 25 25).2 (solve_09_zeroDiv 1 25 25) []

/-- C5: failure isolation as a two-run property.  (i) The point the sweep
stores at position `i` is exactly the per-temperature function of
`(Λ, pump, T_ref)` applied to `temps[i]`, independent of every other
temperature.  (ii) Inserting a temperature whose inversion fails (with
`ConvergenceFailure`) between two sublists leaves both sublists' computed
values unchanged and only inserts the sentinel point at that position; in
particular removing it again restores the original curve.  (iii) A
`ZeroDivisionError` is independent of the temperature — it can never be
caused by one injected sweep temperature while others succeed. -/
theorem c5_failure_isolation :
    (∀ (Λt w3 T_ref : ℝ) (temps : List ℝ) (curve : List TuningPoint),
      sweep Λt w3 T_ref temps = .ok curve →
      ∀ (i : ℕ) (hi : i < temps.length) (hc : i < curve.length),
        sweepPoint Λt w3 T_ref (temps.get ⟨i, hi⟩) = .ok (curve.get ⟨i, hc⟩)) ∧
    (∀ (Λt w3 T_ref : ℝ) (ts₁ ts₂ : List ℝ) (Tf : ℝ),
      solve_w1_for_period Λt w3 Tf T_ref = .error .convergenceFailure →
      sweep Λt w3 T_ref (ts₁ ++ Tf :: ts₂) =
        (sweep Λt w3 T_ref ts₁).bind fun l₁ =>
          (sweep Λt w3 T_ref ts₂).map fun l₂ =>
            l₁ ++ (⟨Tf, none, none⟩ : TuningPoint) :: l₂) ∧
    (∀ (Λt w3 T_ref Tf Tg : ℝ),
      solve_w1_for_period Λt w3 Tf T_ref = .error .zeroDivision →
      solve_w1_for_period Λt w3 Tg T_ref = .error .zeroDivision) := by
  refine ⟨?_, ?_, ?_⟩
  · intro Λt w3 T_ref temps
    induction temps with
    | nil =>
      intro curve _ i hi
      exact absurd hi (by simp)
    | cons T ts ih =>
      intro curve h i hi hc
      cases hp : sweepPoint Λt w3 T_ref T with
      | error e =>
        unfold sweep at h
        rw [hp] at h
        simp at h
      | ok pt =>
        cases hs : sweep Λt w3 T_ref ts with
        | error e =>
          unfold sweep at h
          rw [hp, hs] at h
          simp at h
        | ok rest =>
          unfold sweep at h
          rw [hp, hs] at h
          injection h with h2
          subst h2
          cases i with
          | zero => exact hp
          | succ j =>
            exact ih rest hs j (Nat.lt_of_succ_lt_succ hi) (Nat.lt_of_succ_lt_succ hc)
  · intro Λt w3 T_ref ts₁ ts₂ Tf h
    rw [sweep_append, sweep_cons_conv Λt w3 T_ref Tf ts₂ h]
    cases h1 : sweep Λt w3 T_ref ts₁ <;> cases h2 : sweep Λt w3 T_ref ts₂ <;>
      simp [Except.bind, Except.map]
  · intro Λt w3 T_ref Tf Tg h
    unfold solve_w1_for_period at h ⊢
    by_cases hc : 1 / w3 - 1 / (0.9 : ℝ) = 0
    · rw [if_pos hc]
    · rw [if_neg hc] at h
      exact absurd h (scipyNewton_ne_zeroDiv _ _)

/-- Witness for C5: part (i) at a one-point sweep that convergence-fails at
the fixture pump, part (ii) inserting that failing temperature into the
empty sweep, part (iii) transporting the pump-0.9 zero division from 25 °C
to 30 °C. -/
theorem c5_failure_isolation_witness :
    sweepPoint 1 w3fix 25 (([(25 : ℝ)] : List ℝ).get ⟨0, Nat.zero_lt_one⟩) =
      .ok (([⟨(25 : ℝ), none, none⟩] : List TuningPoint).get ⟨0, Nat.zero_lt_one⟩) ∧
    sweep 1 w3fix 25 ([] ++ (25 : ℝ) :: []) =
      .ok ([] ++ (⟨(25 : ℝ), none, none⟩ : TuningPoint) :: []) ∧
    solve_w1_for_period 1 (0.9 : ℝ) 30 25 = .error .zeroDivision := by
  have hsw : sweep 1 w3fix 25 [(25 : ℝ)] = .ok [⟨(25 : ℝ), none, none⟩] := by
    rw [sweep_cons_conv 1 w3fix 25 25 [] (solve_fix_fail 1 25 25)]
    rfl
  refine ⟨?_, ?_, ?_⟩
  · exact c5_failure_isolation.1 1 w3fix 25 [(25 : ℝ)] [⟨(25 : ℝ), none, none⟩] hsw 0
      Nat.zero_lt_one Nat.zero_lt_one
  · exact (c5_failure_isolation.2.1 1 w3fix 25 [] [] 25 (solve_fix_fail 1 25 25)).trans rfl
  · exact c5_failure_isolation.2.2 1 (0.9 : ℝ) 25 25 30 (solve_09_zeroDiv 1 25 25)

/-- C6: whenever the sweep produces a curve, it has exactly one point per
input temperature, in input order (its temperature column is the input list
itself), and a point whose inversion convergence-failed still occupies its
position carrying the sentinel pair. -/
theorem c6_curve_shape (Λt w3 T_ref : ℝ) (temps : List ℝ) (curve : List TuningPoint)
    (h : sweep Λt w3 T_ref temps = .ok curve) :
    curve.length = temps.length ∧
    curve.map TuningPoint.temperature = temps ∧
    ∀ (i : ℕ) (hi : i < temps.length) (hc : i < curve.length),
      solve_w1_for_period Λt w3 (temps.get ⟨i, hi⟩) T_ref = .error .convergenceFailure →
      curve.get ⟨i, hc⟩ = ⟨temps.get ⟨i, hi⟩, none, none⟩ := by
  induction temps generalizing curve with
  | nil =>
    rw [sweep_nil] at h
    injection h with h2
    subst h2
    exact ⟨rfl, rfl, fun i hi => absurd hi (by simp)⟩
  | cons T ts ih =>
    cases hp : sweepPoint Λt w3 T_ref T with
    | error e =>
      unfold sweep at h
      rw [hp] at h
      simp at h
    | ok pt =>
      cases hs : sweep Λt w3 T_ref ts with
      | error e =>
        unfold sweep at h
        rw [hp, hs] at h
        simp at h
      | ok rest =>
        unfold sweep at h
        rw [hp, hs] at h
        injection h with h2
        subst h2
        obtain ⟨ih1, ih2, ih3⟩ := ih rest hs
        refine ⟨by simp [ih1], ?_, ?_⟩
        · simp [ih2, sweepPoint_temperature Λt w3 T_ref T pt hp]
        · intro i hi hc hsol
          cases i with
          | zero =>
            have hsent := sweepPoint_conv Λt w3 T_ref T hsol
            rw [hp] at hsent
            exact Except.ok.inj hsent
          | succ j =>
            exact ih3 j (Nat.lt_of_succ_lt_succ hi) (Nat.lt_of_succ_lt_succ hc) hsol

/-- Witness for C6 on the one-point sweep that convergence-fails at the
fixture pump: one point, the input temperature column, and the sentinel at
position 0. -/
theorem c6_curve_shape_witness :
    ([⟨(25 : ℝ), none, none⟩] : List TuningPoint).length = [(25 : ℝ)].length ∧
    ([⟨(25 : ℝ), none, none⟩] : List TuningPoint).map TuningPoint.temperature = [(25 : ℝ)] ∧
    ([⟨(25 : ℝ), none, none⟩] : List TuningPoint).get ⟨0, Nat.zero_lt_one⟩ =
      ⟨(25 : ℝ), none, none⟩ := by
  have hsw : sweep 1 w3fix 25 [(25 : ℝ)] = .ok [⟨(25 : ℝ), none, none⟩] := by
    rw [sweep_cons_conv 1 w3fix 25 25 [] (solve_fix_fail 1 25 25)]
    rfl
  obtain ⟨h1, h2, h3⟩ := c6_curve_shape 1 w3fix 25 [(25 : ℝ)] [⟨(25 : ℝ), none, none⟩] hsw
  exact ⟨h1, h2, h3 0 Nat.zero_lt_one Nat.zero_lt_one (solve_fix_fail 1 25 25)⟩

/-- C9 (counterexample): with `auto_calc` on and `w1_example = w3 = 0.81`
(both widget ranges admit 0.81), `T0 = T_ref = 25` and the degenerate range
`T_max = T_min = 50`, the run does not flag the range error: the plain-float
conjugate computation `1/(1/w3 − 1/w1_example)` at src/app.py line 71
divides by zero and the computation aborts before the `T_max ≤ T_min` check
is reached. -/
theorem c9_boundary_counterexample :
    (25 : ℝ) ≤ 25 ∧ (50 : ℝ) ≤ 50 ∧
    run 0.81 0.81 25 25 true 3.425 50 50 51 = .error (.uncaught .zeroDivision) ∧
    run 0.81 0.81 25 25 true 3.425 50 50 51 ≠ .error .rangeError := by
  have hrun : run 0.81 0.81 25 25 true 3.425 50 50 51 =
      .error (.uncaught .zeroDivision) := by
    simp only [run]
    rw [if_neg (by norm_num : ¬(25 : ℝ) < 25), if_pos ⟨trivial, sub_self (1 / (0.81 : ℝ))⟩]
  refine ⟨le_rfl, le_rfl, hrun, ?_⟩
  rw [hrun]
  simp

/-- C9 (amended): `T0 < T_ref` is flagged first and nothing else is
computed.  When `T_ref ≤ T0` and `T_max ≤ T_min`, the range error is
flagged before any sweep whenever the period derivation itself cannot
crash — with a manual period, or with a nonzero auto-calc conjugate
denominator `1/w3 − 1/w1_example`.  When auto-calc is on and that
denominator is zero (`w1_example = w3`), the run instead aborts with the
uncaught `ZeroDivisionError`, before the range check. -/
theorem c9_boundary_amended (w3 w1_example T0 T_ref : ℝ) (auto_calc : Bool)
    (Λmanual T_min T_max : ℝ) (points : ℕ) :
    (T0 < T_ref →
      run w3 w1_example T0 T_ref auto_calc Λmanual T_min T_max points =
        .error .tempOrderError) ∧
    (T_ref ≤ T0 → T_max ≤ T_min →
      (auto_calc = false ∨ 1 / w3 - 1 / w1_example ≠ 0) →
      run w3 w1_example T0 T_ref auto_calc Λmanual T_min T_max points =
        .error .rangeError) ∧
    (T_ref ≤ T0 → auto_calc = true → 1 / w3 - 1 / w1_example = 0 →
      run w3 w1_example T0 T_ref auto_calc Λmanual T_min T_max points =
        .error (.uncaught .zeroDivision)) := by
  refine ⟨?_, ?_, ?_⟩
  · intro h
    simp only [run]
    rw [if_pos h]
  · intro h1 h2 h3
    have hng : ¬(auto_calc = true ∧ 1 / w3 - 1 / w1_example = 0) := by
      rcases h3 with h3 | h3
      · intro hcon
        rw [h3] at hcon
        exact absurd hcon.1 (by simp)
      · intro hcon
        exact h3 hcon.2
    simp only [run]
    rw [if_neg (not_lt.mpr h1), if_neg hng, if_pos h2]
  · intro h1 ha hd
    simp only [run]
    rw [if_neg (not_lt.mpr h1), if_pos ⟨ha, hd⟩]

/-- Witness for the amended C9: a low operating temperature is rejected; a
degenerate range is rejected both with auto-calc (distinct example pair)
and with a manual period; and the coincident example pair aborts with the
zero division even over a perfectly valid range. -/
theorem c9_boundary_amended_witness :
    run 0.405 0.81 20 25 true 3.425 25 75 51 = .error .tempOrderError ∧
    run 0.405 0.81 25 25 true 3.425 50 50 51 = .error .rangeError ∧
    run 0.405 0.81 25 25 false 3.425 50 50 51 = .error .rangeError ∧
    run 0.81 0.81 25 25 true 3.425 25 75 51 = .error (.uncaught .zeroDivision) :=
  ⟨(c9_boundary_amended 0.405 0.81 20 25 true 3.425 25 75 51).1 (by norm_num),
   (c9_boundary_amended 0.405 0.81 25 25 true 3.425 50 50 51).2.1 le_rfl le_rfl
     (Or.inr (by norm_num)),
   (c9_boundary_amended 0.405 0.81 25 25 false 3.425 50 50 51).2.1 le_rfl le_rfl
     (Or.inl rfl),
   (c9_boundary_amended 0.81 0.81 25 25 true 3.425 25 75 51).2.2 le_rfl rfl
     (sub_self (1 / (0.81 : ℝ)))⟩

end PPKTP
